import Mathlib

/-!
Verification development for the smolagents-crew task-graph execution engine.

The definitions below are a shallow embedding of the Python source:
* `core.py` — `TaskDependency`, `Task`, `Agent`, `Crew`;
* `swarm/node.py` — `SwarmNode`;
* `swarm/manager.py` — `SwarmManager`;
* `swarm/server.py` — `SwarmNodeServicer.ExecuteTask`;
* `builder.py` — `AdvancedCrewBuilder.validate_crew`.

Mutable Python objects become explicit state passing; Python dicts become
insertion-ordered association lists; exceptions become `Except` results.
-/

namespace SmolCrew

/-- A Python value held in a context dictionary: either `None` or a string
(agent results and user-supplied context values are strings in this system). -/
inductive PyVal where
  | none
  | str (s : String)
deriving DecidableEq, Repr

/-- `str(v)`: how Python's `str.format` interpolates a context value. -/
def PyVal.toStr : PyVal → String
  | PyVal.none => "None"
  | PyVal.str s => s

/-- A Python exception, by class and message. -/
inductive PyErr where
  | valueError (msg : String)
  | typeError (msg : String)
  | attributeError (msg : String)
  | runtimeError (msg : String)
  | exception (msg : String)
deriving DecidableEq, Repr

/-- A Python `dict` with string keys, as an insertion-ordered association
list whose keys are kept unique by construction (`ctxSet` updates in place). -/
abbrev Ctx := List (String × PyVal)

/-- `context.get(k)` restricted to present/absent: `some v` when `k` is a key. -/
def ctxGet : Ctx → String → Option PyVal
  | [], _ => Option.none
  | (k', v) :: rest, k => if k' = k then some v else ctxGet rest k

/-- Python `k in context`. -/
def ctxMem (c : Ctx) (k : String) : Bool := (ctxGet c k).isSome

/-- Python `context.get(k) is not None`: the key is present with a
non-`None` value. -/
def ctxGetNotNone (c : Ctx) (k : String) : Bool :=
  match ctxGet c k with
  | some (PyVal.str _) => true
  | _ => false

/-- `context[k] = v`: update in place if the key exists, else append. -/
def ctxSet : Ctx → String → PyVal → Ctx
  | [], k, v => [(k, v)]
  | (k', v') :: rest, k, v =>
      if k' = k then (k', v) :: rest else (k', v') :: ctxSet rest k v

theorem ctxGet_set_self (c : Ctx) (k : String) (v : PyVal) :
    ctxGet (ctxSet c k v) k = some v := by
  induction c with
  | nil => simp [ctxSet, ctxGet]
  | cons p rest ih =>
      obtain ⟨k', v'⟩ := p
      by_cases h : k' = k <;> simp [ctxSet, ctxGet, h, ih]

theorem ctxGet_set_ne (c : Ctx) (k k' : String) (v : PyVal) (h : k' ≠ k) :
    ctxGet (ctxSet c k v) k' = ctxGet c k' := by
  induction c with
  | nil => simp [ctxSet, ctxGet, Ne.symm h]
  | cons p rest ih =>
      obtain ⟨k₀, v₀⟩ := p
      by_cases h0 : k₀ = k
      · subst h0
        simp [ctxSet, ctxGet, Ne.symm h]
      · by_cases h1 : k₀ = k'
        · simp [ctxSet, ctxGet, h0, h1, h]
        · simp [ctxSet, ctxGet, h0, h1, ih]

theorem ctxMem_set (c : Ctx) (k k' : String) (v : PyVal) :
    ctxMem (ctxSet c k v) k' = true ↔ (k' = k ∨ ctxMem c k' = true) := by
  by_cases h : k' = k
  · subst h
    simp [ctxMem, ctxGet_set_self]
  · simp [ctxMem, ctxGet_set_ne c k k' v h, h]

/-! ## Template binder

`core.py:48-50` computes required variables with Python's stdlib
`string.Formatter.parse`, and `core.py:67` / `swarm/node.py:69` render via
`str.format(**context)`.  `scan`/`parseTemplate` model the stdlib template
grammar shared by both calls: literal text, escaped double braces, and
brace-delimited replacement fields whose field name ends at a conversion
marker, a colon starting a format specification, or the closing brace.
A result of `Option.none` models the ValueError the stdlib raises on a
malformed template (a lone brace, an unterminated field, ...). -/

/-- A parsed template token: a literal character or a replacement field. -/
inductive PTok where
  | ch (c : Char)
  | fld (name : String)
deriving DecidableEq, Repr

/-- Parser state of the template scanner. -/
inductive PMode where
  | normal
  | sawL
  | sawR
  | field (acc : List Char)
  | conv (name : String)
  | postconv (name : String)
  | spec (depth : Nat)
  | err
deriving DecidableEq, Repr

/-- Template scanner state: tokens emitted so far plus the current mode. -/
structure PState where
  toks : List PTok
  mode : PMode
deriving DecidableEq, Repr

/-- One step of the template scanner. -/
def scan (st : PState) (c : Char) : PState :=
  match st.mode with
  | PMode.normal =>
      if c = '{' then { st with mode := PMode.sawL }
      else if c = '}' then { st with mode := PMode.sawR }
      else { st with toks := st.toks ++ [PTok.ch c] }
  | PMode.sawL =>
      if c = '{' then { toks := st.toks ++ [PTok.ch '{'], mode := PMode.normal }
      else if c = '}' then { toks := st.toks ++ [PTok.fld ""], mode := PMode.normal }
      else if c = ':' then { toks := st.toks ++ [PTok.fld ""], mode := PMode.spec 0 }
      else if c = '!' then { st with mode := PMode.conv "" }
      else { st with mode := PMode.field [c] }
  | PMode.sawR =>
      if c = '}' then { toks := st.toks ++ [PTok.ch '}'], mode := PMode.normal }
      else { st with mode := PMode.err }
  | PMode.field acc =>
      if c = '}' then
        { toks := st.toks ++ [PTok.fld (String.mk acc.reverse)], mode := PMode.normal }
      else if c = ':' then
        { toks := st.toks ++ [PTok.fld (String.mk acc.reverse)], mode := PMode.spec 0 }
      else if c = '!' then { st with mode := PMode.conv (String.mk acc.reverse) }
      else if c = '{' then { st with mode := PMode.err }
      else { st with mode := PMode.field (c :: acc) }
  | PMode.conv name =>
      if c = '}' then { st with mode := PMode.err }
      else if c = ':' then { st with mode := PMode.err }
      else { st with mode := PMode.postconv name }
  | PMode.postconv name =>
      if c = '}' then { toks := st.toks ++ [PTok.fld name], mode := PMode.normal }
      else if c = ':' then { toks := st.toks ++ [PTok.fld name], mode := PMode.spec 0 }
      else { st with mode := PMode.err }
  | PMode.spec depth =>
      if c = '{' then { st with mode := PMode.spec (depth + 1) }
      else if c = '}' then
        match depth with
        | 0 => { st with mode := PMode.normal }
        | d + 1 => { st with mode := PMode.spec d }
      else st
  | PMode.err => st

/-- Scan a whole template; `some toks` on a well-formed template, `none` on
the malformed ones where the stdlib raises. -/
def parseTemplate (t : String) : Option (List PTok) :=
  match t.data.foldl scan ⟨[], PMode.normal⟩ with
  | ⟨toks, PMode.normal⟩ => some toks
  | _ => Option.none

/-- The field-name projection of a token. -/
def PTok.fieldName : PTok → Option String
  | PTok.fld n => some n
  | _ => Option.none

/-- `Task._extract_template_vars` (core.py:48-50): the non-`None` field
names of `Formatter().parse(template)`, in order of appearance. -/
def extractTemplateVars (t : String) : Option (List String) :=
  (parseTemplate t).map (fun toks => toks.filterMap PTok.fieldName)

/-- Substitute context values for the fields of a parsed template.
`none` models the KeyError raised when a field is absent from the context.
Format specifications and conversions are applied as the identity (no
template in this system carries one). -/
def renderToks (toks : List PTok) (c : Ctx) : Option String :=
  toks.foldl
    (fun acc tok =>
      acc.bind fun s =>
        match tok with
        | PTok.ch ch => some (s.push ch)
        | PTok.fld n => (ctxGet c n).map (fun v => s ++ v.toStr))
    (some "")

/-- `template.format(**context)` as called at core.py:67 and node.py:69. -/
def formatTemplate (t : String) (c : Ctx) : Option String :=
  (parseTemplate t).bind (fun toks => renderToks toks c)

/-! ## Spec-side template grammar

Section 4.1 of the specification defines a placeholder as a brace-delimited
identifier and a template as literal text interleaved with placeholders.
These definitions state that grammar independently of the scanner above, so
that the two can be compared. -/

/-- A spec-side template segment: a literal character or a placeholder. -/
inductive TSeg where
  | lit (c : Char)
  | var (name : String)
deriving DecidableEq, Repr

/-- Render a segment list back to the character sequence it denotes. -/
def flattenSegs : List TSeg → List Char
  | [] => []
  | TSeg.lit c :: rest => c :: flattenSegs rest
  | TSeg.var n :: rest => '{' :: (n.data ++ '}' :: flattenSegs rest)

/-- First character of an identifier per the spec grammar. -/
def isIdentStart (c : Char) : Bool := c.isAlpha || c = '_'

/-- Subsequent character of an identifier per the spec grammar. -/
def isIdentChar (c : Char) : Bool := c.isAlphanum || c = '_'

/-- The spec's placeholder identifiers: a letter or underscore followed by
letters, digits or underscores. -/
def validVarName (n : String) : Bool :=
  match n.data with
  | [] => false
  | c :: cs => isIdentStart c && cs.all isIdentChar

/-- Well-formedness of a segment: literal characters are not braces and
placeholder names are identifiers. -/
def validSeg : TSeg → Bool
  | TSeg.lit c => !(c = '{' || c = '}')
  | TSeg.var n => validVarName n

/-- The placeholders of a segment list, in order, one per occurrence. -/
def segVars : List TSeg → List String
  | [] => []
  | TSeg.lit _ :: rest => segVars rest
  | TSeg.var n :: rest => n :: segVars rest

/-! ## Task, dependency and agent model (core.py) -/

/-- `TaskDependency` (core.py:6-17): the name of the task producing the
required result, and the context key under which that result is stored. -/
structure TaskDependency where
  source_task : String
  result_key : String
deriving DecidableEq, Repr

/-- `Agent` (core.py:78-100): for the core all that matters is the name and
the `run(prompt)` operation.  `run` may raise; `Except.error msg` models an
exception with message `msg`. -/
structure Agent where
  name : String
  run : String → Except String String

/-- `Task` (core.py:19-46).  `required_vars`, `_result` and `_completed`
are derived/mutable state and are represented by the functions below and by
explicit state passing. -/
structure Task where
  name : String
  agent : Agent
  prompt_template : String
  dependencies : List TaskDependency
  result_key : Option String

/-- `self.required_vars` as computed at construction (core.py:44,48-50).
Construction propagates the stdlib's ValueError on a malformed template, so
every reachable `Task` value has a parseable template; the empty default
covers the unreachable case. -/
def Task.requiredVars (t : Task) : List String :=
  (extractTemplateVars t.prompt_template).getD []

/-- `Task.is_ready` (core.py:52-55): every dependency's result key has a
non-`None` value in the context (`context.get(...) is not None`), and every
template variable is a key of the context (`var in context`). -/
def Task.is_ready (t : Task) (c : Ctx) : Bool :=
  (t.dependencies.all fun dep => ctxGetNotNone c dep.result_key) &&
  (t.requiredVars.all fun v => ctxMem c v)

/-- `Task.execute` (core.py:57-76): raise ValueError when not ready; render
the prompt (a KeyError becomes a ValueError); run the agent (its exception
propagates); on success write the result under the result key, if one is
declared.  Returns the updated context and the agent's result. -/
def Task.execute (t : Task) (c : Ctx) : Except PyErr (Ctx × String) :=
  if t.is_ready c = false then
    Except.error (PyErr.valueError ("Task " ++ t.name ++ " not ready"))
  else
    match formatTemplate t.prompt_template c with
    | Option.none => Except.error (PyErr.valueError "Missing variable in template")
    | some prompt =>
        match t.agent.run prompt with
        | Except.error msg => Except.error (PyErr.exception msg)
        | Except.ok result =>
            let c' :=
              match t.result_key with
              | some k => ctxSet c k (PyVal.str result)
              | Option.none => c
            Except.ok (c', result)

/-! ## Local crew execution (core.py:102-179) -/

/-- `Crew._task_runner` (core.py:121-136): re-check readiness (return
silently if not ready), execute, and on success append the task name to the
completed list.  Any exception from `Task.execute` is caught and only
printed, leaving context and completed list unchanged. -/
def taskRunner (ctx : Ctx) (completed : List String) (t : Task) :
    Ctx × List String :=
  if t.is_ready ctx = false then (ctx, completed)
  else
    match t.execute ctx with
    | Except.error _ => (ctx, completed)
    | Except.ok (ctx', _) => (ctx', completed ++ [t.name])

/-- The `while remaining_tasks` loop of `Crew.execute` (core.py:148-172).
Each sweep takes the ready tasks as a batch; an empty batch with tasks
remaining prints the deadlock warning and breaks.  Batch threads are all
joined before the next sweep; the batch is run here in declaration order
(the spec's tie-break; distinct result keys make the serialization
unobservable).  Every iteration either removes at least one task or breaks,
so `remaining.length + 1` iterations always suffice; the fuel argument
makes the recursion structural and `crewExecute` supplies that bound.
The result is (final context, completed list, deadlock warning printed). -/
def crewLoop : Nat → List Task → Ctx → List String → Ctx × List String × Bool
  | 0, remaining, ctx, completed => (ctx, completed, !remaining.isEmpty)
  | fuel + 1, remaining, ctx, completed =>
      if remaining.isEmpty then (ctx, completed, false)
      else
        let batch := remaining.filter (fun t => t.is_ready ctx)
        if batch.isEmpty then (ctx, completed, true)
        else
          let rest := remaining.filter (fun t => !(t.is_ready ctx))
          let res := batch.foldl (fun st t => taskRunner st.1 st.2 t) (ctx, completed)
          crewLoop fuel rest res.1 res.2

/-- `Crew.__init__` + `Crew.execute` (core.py:113-179): the crew works on a
copy of the initial context, runs the sweep loop, and returns its context. -/
def crewExecute (tasks : List Task) (initial : Ctx) : Ctx × List String × Bool :=
  crewLoop (tasks.length + 1) tasks initial []

/-! ## Swarm node (swarm/node.py) -/

/-- Lookup in an agent table (a Python dict keyed by agent name). -/
def agentLookup (l : List (String × Agent)) (n : String) : Option Agent :=
  (l.find? (fun p => p.1 == n)).map Prod.snd

/-- `SwarmNode` state (node.py:19-29). -/
structure SNode where
  node_id : String
  available_agents : List (String × Agent)
  current_task : Option String
  status : String

/-- `SwarmNode.__init__` (node.py:19-29): fixed agent table, no current
task, status "idle". -/
def mkSwarmNode (node_id : String) (agents : List (String × Agent)) : SNode :=
  ⟨node_id, agents, Option.none, "idle"⟩

/-- The result dictionary of `SwarmNode.execute_task` (status plus result
or error; the wall-clock duration field is not modelled). -/
inductive TaskRes where
  | success (result : String)
  | error (msg : String)
deriving DecidableEq, Repr

/-- `SwarmNode.execute_task` (node.py:31-89), with the node state passed
explicitly: agent-table lookup, required-variable check against the
context, prompt rendering, agent invocation; every failure is caught and
returned as a status-error dictionary.  The method assigns no attribute of
`self`, so the node component of the result is the input node in every
branch. -/
def SNode.execute_task (n : SNode) (task : Task) (context : Ctx) :
    TaskRes × SNode :=
  match agentLookup n.available_agents task.agent.name with
  | Option.none =>
      (TaskRes.error ("Agent " ++ task.agent.name ++ " not found on node " ++ n.node_id), n)
  | some agent =>
      match extractTemplateVars task.prompt_template with
      | Option.none =>
          (TaskRes.error "ValueError while parsing the prompt template", n)
      | some required_vars =>
          let missing := required_vars.filter (fun v => !(ctxMem context v))
          if missing.isEmpty = false then
            (TaskRes.error ("Task " ++ task.name ++ " is missing required variables"), n)
          else
            match formatTemplate task.prompt_template context with
            | Option.none => (TaskRes.error "Missing variable in template", n)
            | some prompt =>
                match agent.run prompt with
                | Except.error e => (TaskRes.error e, n)
                | Except.ok result => (TaskRes.success result, n)

/-! ## Swarm manager (swarm/manager.py) -/

/-- `SwarmManager` state (manager.py:20-33): registered nodes, the task
queue, and the result store `task_results` (timing bookkeeping is debug
output and is not modelled). -/
structure ManagerState where
  nodes : List (String × SNode)
  task_queue : List Task
  task_results : Ctx

/-- `SwarmManager.get_available_node` (manager.py:91-112): the first
registered node that is idle and whose agent table contains the task's
agent name. -/
def getAvailableNode (m : ManagerState) (task : Task) : Option SNode :=
  (m.nodes.find? (fun p =>
    p.2.status == "idle" && (agentLookup p.2.available_agents task.agent.name).isSome)).map
    Prod.snd

/-- The dispatch context built at manager.py:153-163: a copy of all results
so far, then for each dependency whose source has a recorded result, that
result re-bound under the dependency's declared result key. -/
def dispatchContext (m : ManagerState) (task : Task) : Ctx :=
  task.dependencies.foldl
    (fun c dep =>
      match ctxGet m.task_results dep.source_task with
      | some v => ctxSet c dep.result_key v
      | Option.none => c)
    m.task_results

/-- Outcome of one iteration of the manager's execution loop. -/
inductive ManStep where
  | done (results : Ctx)
  | next (m : ManagerState)
  | fatal (msg : String) (m : ManagerState)

/-- One iteration of the `while self.task_queue` loop of
`SwarmManager.execute_tasks` (manager.py:124-189).  `next` covers both the
rotation (head's dependencies unmet: it moves to the tail) and the bounded
sleep when no node is available (state unchanged); on success the result is
recorded under the task's *name* and the head is popped; on error the loop
raises RuntimeError naming the task. -/
def managerStep (m : ManagerState) : ManStep :=
  match m.task_queue with
  | [] => ManStep.done m.task_results
  | task :: rest =>
      let dependencies_met :=
        task.dependencies.all (fun dep => ctxMem m.task_results dep.source_task)
      if dependencies_met = false then
        ManStep.next { m with task_queue := rest ++ [task] }
      else
        match getAvailableNode m task with
        | Option.none => ManStep.next m
        | some node =>
            let context := dispatchContext m task
            match (node.execute_task task context).1 with
            | TaskRes.success result =>
                ManStep.next { m with
                  task_results := ctxSet m.task_results task.name (PyVal.str result),
                  task_queue := rest }
            | TaskRes.error err =>
                ManStep.fatal ("Task " ++ task.name ++ " failed: " ++ err) m

/-- `SwarmManager.execute_tasks` (manager.py:114-195) iterated for a given
number of steps; `Option.none` means the loop was still running after that
many iterations.  The source loop has no iteration bound, so a state on
which every fuel returns `none` is an infinite loop. -/
def executeTasksFuel : Nat → ManagerState → Option (Except String Ctx)
  | 0, _ => Option.none
  | fuel + 1, m =>
      match managerStep m with
      | ManStep.done r => some (Except.ok r)
      | ManStep.fatal msg _ => some (Except.error msg)
      | ManStep.next m' => executeTasksFuel fuel m'

/-! ## Builder validation (builder.py) -/

/-- `CrewBuilder` state (builder.py:15-18). -/
structure BuilderState where
  agents : List (String × Agent)
  tasks : List Task
  shared_context : Ctx

/-- builder.py:134 reads `dep.task_name`, but `TaskDependency`
(core.py:15-17) defines only `source_task` and `result_key`, so the
attribute access raises AttributeError.  (The repository's own unit tests,
tests/test_builder.py, construct `core.TaskDependency` values and drive
them into `validate_crew`.) -/
def depTaskName (_ : TaskDependency) : Except PyErr String :=
  Except.error
    (PyErr.attributeError "TaskDependency object has no attribute task_name")

/-- builder.py:147 reads `task.agent_name`, but `Task` (core.py:33-46)
stores the agent object under `agent` and defines no `agent_name`
attribute, so the access raises AttributeError. -/
def taskAgentName (_ : Task) : Except PyErr String :=
  Except.error (PyErr.attributeError "Task object has no attribute agent_name")

/-- `check_circular_deps` (builder.py:122-138) with `visited` threaded and
`path` passed explicitly (it is empty at every top-level call, and the
recursion at builder.py:134 is never reached because the `dep.task_name`
access raises first). -/
def checkCircularDeps (b : BuilderState) (visited : List String)
    (task_name : String) (path : List String) :
    Except PyErr (Bool × List String) :=
  if task_name ∈ path then Except.ok (true, visited)
  else if task_name ∈ visited then Except.ok (false, visited)
  else
    let visited' := task_name :: visited
    match b.tasks.find? (fun t => t.name == task_name) with
    | Option.none => Except.ok (false, visited')
    | some task =>
        match task.dependencies with
        | [] => Except.ok (false, visited')
        | dep :: _ =>
            -- builder.py:133-135 iterates the dependencies, recursing on
            -- dep.task_name; the first attribute access raises, so the
            -- recursion is never entered.
            (depTaskName dep).map (fun _ => (false, visited'))

/-- The dependency checks of builder.py:151-156 for one task: each
dependency's `dep.task_name` is looked up among the tasks, and an empty
result key is rejected. -/
def validateDeps (b : BuilderState) (taskName : String) :
    List TaskDependency → Except PyErr Unit
  | [] => Except.ok ()
  | dep :: more => do
      let depName ← depTaskName dep
      match b.tasks.find? (fun t => t.name == depName) with
      | Option.none =>
          Except.error (PyErr.valueError
            ("Dependency task " ++ depName ++ " not found for task: " ++ taskName))
      | some _ =>
          if dep.result_key = "" then
            Except.error (PyErr.valueError
              ("Missing result key in dependency for task: " ++ taskName))
          else validateDeps b taskName more

/-- The per-task body of `validate_crew`'s loop (builder.py:141-156):
cycle check, agent check, dependency checks. -/
def validateTasksLoop (b : BuilderState) :
    List Task → List String → Except PyErr Unit
  | [], _ => Except.ok ()
  | task :: rest, visited => do
      let r ← checkCircularDeps b visited task.name []
      if r.1 then
        Except.error (PyErr.valueError
          ("Circular dependency detected involving task: " ++ task.name))
      else do
        let agentName ← taskAgentName task
        let _ ←
          if agentName ≠ "" && (agentLookup b.agents agentName).isNone then
            Except.error (α := Unit) (PyErr.valueError
              ("Missing agent " ++ agentName ++ " for task: " ++ task.name))
          else Except.ok ()
        let _ ← validateDeps b task.name task.dependencies
        validateTasksLoop b rest r.2

/-- `AdvancedCrewBuilder.validate_crew` (builder.py:105-158). -/
def validateCrew (b : BuilderState) : Except PyErr Unit :=
  validateTasksLoop b b.tasks []

/-! ## Remote ExecuteTask handler (swarm/server.py) -/

/-- The ExecuteTask request message.  Modelled from the spec: the
interface-description file and its generated wire stubs are not under src/;
§6 of the spec gives the `TaskMessage` shape as name, agent name, opaque
data and dependency names. -/
structure TaskMessage where
  name : String
  agent_name : String
  data : String
  dependencies : List String
deriving DecidableEq, Repr

/-- The TaskResult response message.  Modelled from the spec (§6):
status ("success" or "error"), result payload, error string. -/
structure TaskResultMsg where
  status : String
  result : String
  error : String
deriving DecidableEq, Repr

/-- The parameters of `Task.__init__` (core.py:33-38), in declaration
order. -/
def taskCtorParams : List String :=
  ["name", "agent", "prompt_template", "dependencies", "result_key"]

/-- The parameters of `Task.__init__` without a default value. -/
def taskCtorRequired : List String := ["name", "agent", "prompt_template"]

/-- Python keyword-argument binding: a keyword that names no parameter
raises TypeError (unexpected keyword argument), and a defaultless
parameter left unbound raises TypeError (missing required argument). -/
def bindKwargs (params required kwargs : List String) : Except PyErr Unit :=
  match kwargs.find? (fun k => !(params.contains k)) with
  | some k => Except.error (PyErr.typeError ("unexpected keyword argument " ++ k))
  | Option.none =>
      match required.find? (fun r => !(kwargs.contains r)) with
      | some r => Except.error (PyErr.typeError ("missing required argument " ++ r))
      | Option.none => Except.ok ()

/-- `SwarmNodeServicer.ExecuteTask` (server.py:62-101): look up the agent
in the node's table (server.py:81), construct a Task with keyword arguments
`name`, `agent` and `data` (server.py:79-83), execute it on the local node
with no context (server.py:86), and convert the result dictionary to a
TaskResult message (server.py:89-93).  The keyword binding against
`Task.__init__` decides whether construction succeeds; its continuation is
written out to mirror server.py:86-93 and treats `data` as the prompt. -/
def executeTaskHandler (node : SNode) (request : TaskMessage) :
    Except PyErr TaskResultMsg :=
  match agentLookup node.available_agents request.agent_name with
  | Option.none =>
      Except.error (PyErr.exception ("KeyError: " ++ request.agent_name))
  | some agent => do
      let _ ← bindKwargs taskCtorParams taskCtorRequired ["name", "agent", "data"]
      let task : Task := ⟨request.name, agent, request.data, [], Option.none⟩
      match (node.execute_task task []).1 with
      | TaskRes.success result => Except.ok ⟨"success", result, ""⟩
      | TaskRes.error e => Except.ok ⟨"error", "", e⟩

/-! ## Heap model for context ownership (core.py:113-119, swarm/crew.py:88-114) -/

/-- A heap of Python dict objects, addressed by reference. -/
abbrev Heap := List (Nat × Ctx)

/-- Dereference a dict. -/
def heapGet : Heap → Nat → Option Ctx
  | [], _ => Option.none
  | (r', c) :: rest, r => if r' = r then some c else heapGet rest r

/-- Overwrite (or allocate) the dict at a reference. -/
def heapSet : Heap → Nat → Ctx → Heap
  | [], r, c => [(r, c)]
  | (r', c') :: rest, r, c =>
      if r' = r then (r', c) :: rest else (r', c') :: heapSet rest r c

/-- A reference not used by any allocation in the heap. -/
def freshRef (h : Heap) : Nat :=
  h.foldl (fun acc p => max acc (p.1 + 1)) 0

/-- `Crew.__init__` (core.py:113-119) on the heap:
`self.context = initial_context.copy()` allocates a fresh dict holding the
caller's entries; the caller's dict is only read. -/
def crewInitHeap (h : Heap) (callerRef : Nat) : Heap × Nat :=
  let r := freshRef h
  (heapSet h r ((heapGet h callerRef).getD []), r)

/-- Local `Crew.execute` on the heap: the sweep loop reads and writes only
the crew's own context dict (`self.context`), so its net effect on the heap
is the final value of that one dict. -/
def crewRunHeap (h : Heap) (callerRef : Nat) (tasks : List Task) :
    Heap × List String × Bool :=
  let hr := crewInitHeap h callerRef
  let res := crewExecute tasks ((heapGet hr.1 hr.2).getD [])
  (heapSet hr.1 hr.2 res.1, res.2.1, res.2.2)

/-- `SwarmCrew.execute` (swarm/crew.py:88-114) on the heap: the manager's
result store is a manager-owned dict seeded by
`task_results.update(self.context)`; the run writes only manager state and
touches no heap dict. -/
def swarmRunHeap (h : Heap) (callerRef : Nat) (tasks : List Task)
    (nodes : List (String × SNode)) (fuel : Nat) :
    Heap × Option (Except String Ctx) :=
  let hr := crewInitHeap h callerRef
  let m : ManagerState := ⟨nodes, tasks, (heapGet hr.1 hr.2).getD []⟩
  (hr.1, executeTasksFuel fuel m)

/-! ## Helper lemmas -/

theorem ctxGetNotNone_eq_true (c : Ctx) (k : String) :
    ctxGetNotNone c k = true ↔ ∃ s, ctxGet c k = some (PyVal.str s) := by
  unfold ctxGetNotNone
  cases h : ctxGet c k with
  | none => simp
  | some v =>
      cases v with
      | none => simp
      | str s => simp

/-! ## Claims -/

/-- C4, counterexample: for the task with the single dependency (S, k), an
empty prompt template and the context mapping k to Python `None`, the
context contains the key k and the template has no placeholders — so the
claim says the task is ready — yet `Task.is_ready` returns false, because
core.py:53 tests `context.get(k) is not None`, not `k in context`. -/
theorem c4_counterexample :
    Task.is_ready ⟨"T", ⟨"N", fun p => Except.ok p⟩, "", [⟨"S", "k"⟩], Option.none⟩
        [("k", PyVal.none)] = false ∧
    ctxMem [("k", PyVal.none)] "k" = true ∧
    Task.requiredVars ⟨"T", ⟨"N", fun p => Except.ok p⟩, "", [⟨"S", "k"⟩], Option.none⟩ = [] :=
  ⟨rfl, rfl, rfl⟩

/-- C4 (amended): the readiness test returns true iff every dependency's
result key is present in the context with a non-None value, and every
placeholder of the prompt template is a key of the context. -/
theorem c4_is_ready_iff (t : Task) (c : Ctx) :
    t.is_ready c = true ↔
      ((∀ dep ∈ t.dependencies, ∃ s, ctxGet c dep.result_key = some (PyVal.str s)) ∧
       (∀ v ∈ t.requiredVars, ctxMem c v = true)) := by
  simp [Task.is_ready, List.all_eq_true, ctxGetNotNone_eq_true]

/-- C7, counterexample: executing a task on a node leaves the node's state
— in particular its status field — exactly as it was: the claimed
idle → busy transition before the agent is invoked never happens, because
node.py:31-89 assigns no attribute of the node. -/
theorem c7_counterexample :
    (SNode.execute_task (mkSwarmNode "n1" [("A", ⟨"A", fun p => Except.ok p⟩)])
        ⟨"T", ⟨"A", fun p => Except.ok p⟩, "go", [], Option.none⟩ []).2 =
      mkSwarmNode "n1" [("A", ⟨"A", fun p => Except.ok p⟩)] ∧
    (mkSwarmNode "n1" [("A", ⟨"A", fun p => Except.ok p⟩)]).status = "idle" :=
  ⟨rfl, rfl⟩

/-- C7 (amended): `SwarmNode.execute_task` never modifies the node: the
status field stays at its construction-time value "idle" throughout, and
node exclusivity follows from the manager's sequential dispatch loop, not
from any idle/busy transition. -/
theorem c7_execute_task_preserves_node (n : SNode) (t : Task) (c : Ctx) :
    (n.execute_task t c).2 = n := by
  unfold SNode.execute_task
  repeat' split
  all_goals first | rfl | (dsimp only; split_ifs <;> rfl)

/-- C3, code bug: on the one-task crew of
tests/test_builder.py::test_validate_crew_missing_agent (a task whose agent
is not registered), `validate_crew` raises AttributeError instead of the
ValueError naming the missing agent that both the claim and the test
expect, because builder.py:147 reads `task.agent_name`, an attribute
`core.Task` does not define. -/
theorem c3_code_bug :
    validateCrew
      ⟨[],
       [⟨"task1", ⟨"mock", fun _ => Except.ok "executed"⟩, "Test {param}", [],
         some "result1"⟩],
       []⟩ =
      Except.error (PyErr.attributeError "Task object has no attribute agent_name") :=
  rfl

/-- C9, code bug: for an ExecuteTask request whose agent is present in the
serving node's table, the handler raises TypeError out of the handler
instead of returning a TaskResult, because server.py:79-83 calls
`Task(name=..., agent=..., data=...)` while `Task.__init__` (core.py:33-38)
has no `data` parameter (and `prompt_template` has no default). -/
theorem c9_code_bug :
    executeTaskHandler
        (mkSwarmNode "remote" [("W", ⟨"W", fun p => Except.ok ("R:" ++ p)⟩)])
        ⟨"T1", "W", "payload", []⟩ =
      Except.error (PyErr.typeError "unexpected keyword argument data") :=
  rfl

/-! ## Concrete fixtures used by counterexamples and witnesses -/

/-- The deterministic echo agent of spec §8: run(p) = "R:" ++ p. -/
def echoAgent : Agent := ⟨"echo", fun p => Except.ok ("R:" ++ p)⟩

/-- An agent whose run always raises. -/
def failAgent : Agent := ⟨"fail", fun _ => Except.error "boom"⟩

/-- A node hosting the echo agent under the key "echo". -/
def nodeLocal : SNode := mkSwarmNode "local" [("echo", echoAgent)]

/-- A dependency-free task with a declared result key. -/
def taskB : Task := ⟨"B", echoAgent, "go", [], some "rk"⟩

/-- A second dependency-free task with a declared result key. -/
def taskB2 : Task := ⟨"B2", echoAgent, "hi", [], some "rk2"⟩

/-- A task whose dependency source "ghost" is never enqueued. -/
def taskU : Task := ⟨"U", echoAgent, "p", [⟨"ghost", "g"⟩], some "a"⟩

/-- A task whose agent raises at run time. -/
def taskF : Task := ⟨"F", failAgent, "go", [], some "rk"⟩

/-- A node hosting only the failing agent. -/
def nodeFail : SNode := mkSwarmNode "local" [("fail", failAgent)]

/-- Manager about to dispatch `taskB` successfully. -/
def mgrC2 : ManagerState := ⟨[("local", nodeLocal)], [taskB], []⟩

/-- Manager about to dispatch `taskB2` successfully. -/
def mgrC2w : ManagerState := ⟨[("local", nodeLocal)], [taskB2], []⟩

/-- Manager whose only queued task can never become dispatchable. -/
def mgrC1 : ManagerState := ⟨[("local", nodeLocal)], [taskU], []⟩

/-- Manager whose only queued task fails at run time. -/
def mgrC5 : ManagerState := ⟨[("local", nodeFail)], [taskF], []⟩

/-! ## C2: result publication on success -/

/-- C2, counterexample: the node reports success with result "R:go" for a
task whose declared result key is "rk", yet after the manager's success
step the result store has no key "rk": manager.py:183 records the result
under the task's *name* "B". -/
theorem c2_counterexample :
    managerStep mgrC2 =
      ManStep.next ⟨[("local", nodeLocal)], [], [("B", PyVal.str "R:go")]⟩ ∧
    ctxMem [(("B" : String), PyVal.str "R:go")] "rk" = false ∧
    taskB.result_key = some "rk" ∧
    (nodeLocal.execute_task taskB []).1 = TaskRes.success "R:go" :=
  ⟨rfl, rfl, rfl, rfl⟩

/-- C2 (amended): when the head task's dependencies are met, a node is
available, and the node reports success, the manager records the result in
its result store under the task's *name* (the store doubling as the
completion record), preserves every other entry of the store, and removes
the task from the queue.  The task's declared result key is bound into
dependents' contexts only at their dispatch (manager.py:158-160); in local
mode `Task.execute` does publish under the declared result key. -/
theorem c2_manager_success (m : ManagerState) (task : Task) (rest : List Task)
    (node : SNode) (result : String)
    (hq : m.task_queue = task :: rest)
    (hdeps : task.dependencies.all
      (fun dep => ctxMem m.task_results dep.source_task) = true)
    (hnode : getAvailableNode m task = some node)
    (hexec : (node.execute_task task (dispatchContext m task)).1 =
      TaskRes.success result) :
    ∃ m', managerStep m = ManStep.next m' ∧
      ctxGet m'.task_results task.name = some (PyVal.str result) ∧
      m'.task_queue = rest ∧
      (∀ k, k ≠ task.name → ctxGet m'.task_results k = ctxGet m.task_results k) := by
  refine ⟨{ m with
      task_results := ctxSet m.task_results task.name (PyVal.str result),
      task_queue := rest }, ?_, ?_, rfl, ?_⟩
  · unfold managerStep
    rw [hq]
    simp [hdeps, hnode, hexec]
  · exact ctxGet_set_self _ _ _
  · exact fun k hk => ctxGet_set_ne _ _ _ _ hk

/-- C2, witness for the amended theorem at a concrete manager state. -/
theorem c2_witness :
    ∃ m', managerStep mgrC2w = ManStep.next m' ∧
      ctxGet m'.task_results "B2" = some (PyVal.str "R:hi") ∧
      m'.task_queue = [] ∧
      (∀ k, k ≠ "B2" → ctxGet m'.task_results k = ctxGet mgrC2w.task_results k) :=
  c2_manager_success mgrC2w taskB2 [] nodeLocal "R:hi" rfl rfl rfl rfl

/-! ## C5: blast radius of a runtime task failure -/

/-- C5, counterexample: in local mode the failure of a task's agent does
not abort the run and no exception propagates: `Crew.execute` on a single
task whose agent raises returns the context normally (with an empty
completed list and no deadlock warning), because core.py:135-136 catches
every exception in `_task_runner` and only prints it. -/
theorem c5_counterexample :
    crewExecute [taskF] [] = ([], [], false) ∧
    taskF.execute [] = Except.error (PyErr.exception "boom") :=
  ⟨rfl, rfl⟩

/-- C5 (amended): in swarm mode a task error is fatal: the manager raises
a single RuntimeError whose message names the failed task, leaving its
result store — and so every previously completed result — untouched and
recoverable by inspection.  In the local threaded mode the failure is
instead swallowed and the run continues (c5_counterexample). -/
theorem c5_manager_error (m : ManagerState) (task : Task) (rest : List Task)
    (node : SNode) (err : String)
    (hq : m.task_queue = task :: rest)
    (hdeps : task.dependencies.all
      (fun dep => ctxMem m.task_results dep.source_task) = true)
    (hnode : getAvailableNode m task = some node)
    (hexec : (node.execute_task task (dispatchContext m task)).1 =
      TaskRes.error err) :
    managerStep m = ManStep.fatal ("Task " ++ task.name ++ " failed: " ++ err) m := by
  unfold managerStep
  rw [hq]
  simp [hdeps, hnode, hexec]

/-- C5, witness for the amended theorem at a concrete manager state. -/
theorem c5_witness :
    managerStep mgrC5 = ManStep.fatal "Task F failed: boom" mgrC5 :=
  c5_manager_error mgrC5 taskF [] nodeFail "boom" rfl rfl rfl rfl

/-! ## C1: termination of the execution loop on an undispatchable task -/

/-- C1, counterexample: with a single queued task whose dependency source
"ghost" is never enqueued, one iteration of the manager loop returns the
identical state (the head rotates back onto the singleton queue), so the
loop never terminates — running it for 100 iterations still yields no
outcome.  No deadlock check exists in manager.py:124-189. -/
theorem c1_counterexample :
    managerStep mgrC1 = ManStep.next mgrC1 ∧
    executeTasksFuel 100 mgrC1 = Option.none :=
  ⟨rfl, rfl⟩

theorem execute_ctx_mem (t : Task) (c c' : Ctx) (r : String)
    (h : t.execute c = Except.ok (c', r)) (k : String)
    (hm : ctxMem c' k = true) : ctxMem c k = true ∨ t.result_key = some k := by
  unfold Task.execute at h
  split at h
  · simp at h
  · split at h
    · simp at h
    · split at h
      · simp at h
      · dsimp only at h
        cases hrk : t.result_key with
        | none =>
            rw [hrk] at h
            simp only [Except.ok.injEq, Prod.mk.injEq] at h
            rw [← h.1] at hm
            exact Or.inl hm
        | some key =>
            rw [hrk] at h
            simp only [Except.ok.injEq, Prod.mk.injEq] at h
            rw [← h.1] at hm
            rcases (ctxMem_set c key k _).mp hm with hk | hk
            · exact Or.inr (by rw [hk])
            · exact Or.inl hk

theorem taskRunner_mem (ctx : Ctx) (completed : List String) (u : Task)
    (k : String) (hm : ctxMem (taskRunner ctx completed u).1 k = true) :
    ctxMem ctx k = true ∨ u.result_key = some k := by
  unfold taskRunner at hm
  split at hm
  · exact Or.inl hm
  · split at hm
    · exact Or.inl hm
    · rename_i ctx' r heq
      exact execute_ctx_mem u ctx _ _ heq k hm

theorem batchFold_mem (batch : List Task) (k : String) :
    ∀ (st : Ctx × List String),
      ctxMem (batch.foldl (fun st t => taskRunner st.1 st.2 t) st).1 k = true →
      ctxMem st.1 k = true ∨ ∃ u ∈ batch, u.result_key = some k := by
  induction batch with
  | nil => exact fun st hm => Or.inl hm
  | cons u us ih =>
      intro st hm
      rcases ih (taskRunner st.1 st.2 u) hm with h | ⟨w, hw, hwk⟩
      · rcases taskRunner_mem st.1 st.2 u k h with h' | h'
        · exact Or.inl h'
        · exact Or.inr ⟨u, by simp, h'⟩
      · exact Or.inr ⟨w, by simp [hw], hwk⟩

theorem crewLoop_deadlock (tasks : List Task) (initial : Ctx) (t : Task)
    (dep : TaskDependency) (hdep : dep ∈ t.dependencies)
    (hinit : ctxMem initial dep.result_key = false)
    (hnores : ∀ u ∈ tasks, u.result_key ≠ some dep.result_key) :
    ∀ (fuel : Nat) (remaining : List Task) (ctx : Ctx) (completed : List String),
      t ∈ remaining →
      (∀ u ∈ remaining, u ∈ tasks) →
      (∀ k, ctxMem ctx k = true →
        ctxMem initial k = true ∨ ∃ u ∈ tasks, u.result_key = some k) →
      (crewLoop fuel remaining ctx completed).2.2 = true := by
  intro fuel
  induction fuel with
  | zero =>
      intro remaining ctx completed ht _ _
      cases remaining with
      | nil => cases ht
      | cons a as => rfl
  | succ n ih =>
      intro remaining ctx completed ht hsub hctx
      have hkmem : ctxMem ctx dep.result_key = false := by
        cases h : ctxMem ctx dep.result_key with
        | false => rfl
        | true =>
            rcases hctx dep.result_key h with hi | ⟨u, hu, huk⟩
            · rw [hi] at hinit; exact absurd hinit (by decide)
            · exact absurd huk (hnores u hu)
      have htnr : t.is_ready ctx = false := by
        unfold Task.is_ready
        cases hall : (t.dependencies.all fun d => ctxGetNotNone ctx d.result_key) with
        | false => simp [hall]
        | true =>
            exfalso
            have hd := (List.all_eq_true.mp hall) dep hdep
            rcases (ctxGetNotNone_eq_true ctx dep.result_key).mp hd with ⟨s, hs⟩
            have hmem : ctxMem ctx dep.result_key = true := by
              unfold ctxMem; rw [hs]; rfl
            rw [hmem] at hkmem
            exact absurd hkmem (by decide)
      cases hrem : remaining with
      | nil => rw [hrem] at ht; cases ht
      | cons a as =>
          rw [hrem] at ht hsub
          by_cases hbatch :
              ((a :: as).filter (fun t => t.is_ready ctx)).isEmpty = true
          · simp [crewLoop, hbatch]
          · simp only [crewLoop, List.isEmpty_cons, Bool.false_eq_true,
              if_false, hbatch]
            apply ih
            · exact List.mem_filter.mpr ⟨ht, by simp [htnr]⟩
            · exact fun u hu => hsub u (List.mem_filter.mp hu).1
            · intro k hk
              rcases batchFold_mem _ k (ctx, completed) hk with h | ⟨u, hu, huk⟩
              · exact hctx k h
              · exact Or.inr ⟨u, hsub u (List.mem_filter.mp hu).1, huk⟩

/-- C1 (amended): the local `Crew.execute` loop always terminates (it is a
total function of its bounded sweep count), and whenever some task carries
a dependency whose result key is neither an initial-context key nor any
task's declared result key — an undispatchable task — the run ends with
the deadlock warning printed, after the first sweep that finds no ready
task.  The swarm manager's loop, by contrast, has no deadlock check and
rotates forever (c1_counterexample); nothing "aborts with an error": the
local path prints the warning and returns the partial context normally. -/
theorem c1_local_deadlock (tasks : List Task) (initial : Ctx) (t : Task)
    (dep : TaskDependency) (ht : t ∈ tasks) (hdep : dep ∈ t.dependencies)
    (hinit : ctxMem initial dep.result_key = false)
    (hnores : ∀ u ∈ tasks, u.result_key ≠ some dep.result_key) :
    (crewExecute tasks initial).2.2 = true :=
  crewLoop_deadlock tasks initial t dep hdep hinit hnores (tasks.length + 1)
    tasks initial [] ht (fun _ hu => hu) (fun _ hk => Or.inl hk)

/-- C1, witness for the amended theorem: the one-task crew whose dependency
source is never enqueued ends with the deadlock warning. -/
theorem c1_witness : (crewExecute [taskU] []).2.2 = true :=
  c1_local_deadlock [taskU] [] taskU ⟨"ghost", "g"⟩ (List.mem_singleton.mpr rfl)
    (List.mem_singleton.mpr rfl) rfl
    (fun u hu => by
      rw [List.mem_singleton] at hu
      subst hu
      decide)

/-! ## C6: required_vars against the spec grammar -/

/-- Run the template scanner over a character list from a given state. -/
def scanList (l : List Char) (st : PState) : PState := l.foldl scan st

/-- The tokens a well-formed segment list should produce. -/
def segToks : List TSeg → List PTok
  | [] => []
  | TSeg.lit c :: rest => PTok.ch c :: segToks rest
  | TSeg.var n :: rest => PTok.fld n :: segToks rest

theorem identChar_ne (c : Char) (h : isIdentChar c = true) :
    c ≠ '{' ∧ c ≠ '}' ∧ c ≠ ':' ∧ c ≠ '!' := by
  refine ⟨?_, ?_, ?_, ?_⟩ <;> (intro hc; subst hc; revert h; decide)

theorem identStart_ne (c : Char) (h : isIdentStart c = true) :
    c ≠ '{' ∧ c ≠ '}' ∧ c ≠ ':' ∧ c ≠ '!' := by
  refine ⟨?_, ?_, ?_, ?_⟩ <;> (intro hc; subst hc; revert h; decide)

theorem scanList_field (rest : List Char) :
    ∀ (cs : List Char), (∀ c ∈ cs, isIdentChar c = true) →
    ∀ (acc : List Char) (toks : List PTok),
      scanList (cs ++ '}' :: rest) ⟨toks, PMode.field acc⟩ =
      scanList rest ⟨toks ++ [PTok.fld (String.mk (acc.reverse ++ cs))], PMode.normal⟩ := by
  intro cs
  induction cs with
  | nil =>
      intro _ acc toks
      simp [scanList, scan]
  | cons c cs ih =>
      intro hall acc toks
      have hne := identChar_ne c (hall c (by simp))
      have h1 : scanList ((c :: cs) ++ '}' :: rest) ⟨toks, PMode.field acc⟩ =
          scanList (cs ++ '}' :: rest) ⟨toks, PMode.field (c :: acc)⟩ := by
        simp [scanList, scan, hne.1, hne.2.1, hne.2.2.1, hne.2.2.2]
      rw [h1, ih (fun x hx => hall x (by simp [hx])) (c :: acc) toks]
      have hstr : (c :: acc).reverse ++ cs = acc.reverse ++ (c :: cs) := by simp
      rw [hstr]

theorem scanList_flatten (segs : List TSeg) (h : ∀ s ∈ segs, validSeg s = true) :
    ∀ toks, scanList (flattenSegs segs) ⟨toks, PMode.normal⟩ =
      ⟨toks ++ segToks segs, PMode.normal⟩ := by
  induction segs with
  | nil => intro toks; simp [flattenSegs, scanList, segToks]
  | cons s ss ih =>
      intro toks
      have hs := h s (by simp)
      have hss : ∀ x ∈ ss, validSeg x = true := fun x hx => h x (by simp [hx])
      cases s with
      | lit c =>
          have hc : ¬c = '{' ∧ ¬c = '}' := by simpa [validSeg] using hs
          have h1 : scanList (c :: flattenSegs ss) ⟨toks, PMode.normal⟩ =
              scanList (flattenSegs ss) ⟨toks ++ [PTok.ch c], PMode.normal⟩ := by
            simp [scanList, scan, hc.1, hc.2]
          rw [show flattenSegs (TSeg.lit c :: ss) = c :: flattenSegs ss from rfl,
            h1, ih hss (toks ++ [PTok.ch c])]
          simp [segToks]
      | var n =>
          obtain ⟨ndata⟩ := n
          have hv : validVarName (String.mk ndata) = true := by
            simpa [validSeg] using hs
          cases hnd : ndata with
          | nil =>
              rw [hnd] at hv
              simp [validVarName] at hv
          | cons c0 cs =>
              subst hnd
              simp only [validVarName, Bool.and_eq_true] at hv
              have hstart : isIdentStart c0 = true := hv.1
              have hrest : ∀ c ∈ cs, isIdentChar c = true :=
                List.all_eq_true.mp hv.2
              have hne0 := identStart_ne c0 hstart
              have hflat : flattenSegs (TSeg.var (String.mk (c0 :: cs)) :: ss) =
                  '{' :: c0 :: (cs ++ '}' :: flattenSegs ss) := by
                simp [flattenSegs]
              rw [hflat]
              have h1 : scanList ('{' :: c0 :: (cs ++ '}' :: flattenSegs ss))
                    ⟨toks, PMode.normal⟩ =
                  scanList (c0 :: (cs ++ '}' :: flattenSegs ss)) ⟨toks, PMode.sawL⟩ := by
                simp [scanList, scan]
              have h2 : scanList (c0 :: (cs ++ '}' :: flattenSegs ss))
                    ⟨toks, PMode.sawL⟩ =
                  scanList (cs ++ '}' :: flattenSegs ss) ⟨toks, PMode.field [c0]⟩ := by
                simp [scanList, scan, hne0.1, hne0.2.1, hne0.2.2.1, hne0.2.2.2]
              rw [h1, h2, scanList_field (flattenSegs ss) cs hrest [c0] toks]
              have hname : String.mk ([c0].reverse ++ cs) = String.mk (c0 :: cs) := by
                simp
              rw [hname, ih hss (toks ++ [PTok.fld (String.mk (c0 :: cs))])]
              simp [segToks]

theorem parseTemplate_flatten (segs : List TSeg)
    (h : ∀ s ∈ segs, validSeg s = true) :
    parseTemplate (String.mk (flattenSegs segs)) = some (segToks segs) := by
  unfold parseTemplate
  rw [show (String.mk (flattenSegs segs)).data = flattenSegs segs from rfl,
    show (flattenSegs segs).foldl scan ⟨[], PMode.normal⟩ =
      scanList (flattenSegs segs) ⟨[], PMode.normal⟩ from rfl,
    scanList_flatten segs h []]
  rfl

theorem segToks_fieldNames (segs : List TSeg) :
    (segToks segs).filterMap PTok.fieldName = segVars segs := by
  induction segs with
  | nil => rfl
  | cons s ss ih => cases s <;> simp [segToks, segVars, PTok.fieldName, ih]

/-- C6: for every template generated by the spec's grammar (literal
non-brace characters interleaved with brace-delimited identifier
placeholders), the extractor behind `Task._extract_template_vars` and
`TemplateValidator.get_required_vars` returns exactly the placeholder
identifiers in their order of appearance, one entry per occurrence; and a
repeated call on the same template returns the identical list. -/
theorem c6_required_vars (segs : List TSeg)
    (h : ∀ s ∈ segs, validSeg s = true) :
    extractTemplateVars (String.mk (flattenSegs segs)) = some (segVars segs) ∧
    extractTemplateVars (String.mk (flattenSegs segs)) =
      extractTemplateVars (String.mk (flattenSegs segs)) := by
  refine ⟨?_, rfl⟩
  unfold extractTemplateVars
  rw [parseTemplate_flatten segs h]
  simp [segToks_fieldNames]

/-- C6, witness: the template "s\x7bx\x7dt\x7bx\x7d" (a literal, the
placeholder x, a literal, the placeholder x again) yields the list with x
twice, in order. -/
theorem c6_witness :
    (∀ s ∈ [TSeg.lit 's', TSeg.var "x", TSeg.lit 't', TSeg.var "x"],
      validSeg s = true) ∧
    String.mk (flattenSegs [TSeg.lit 's', TSeg.var "x", TSeg.lit 't', TSeg.var "x"]) =
      "s{x}t{x}" ∧
    extractTemplateVars
      (String.mk (flattenSegs [TSeg.lit 's', TSeg.var "x", TSeg.lit 't', TSeg.var "x"])) =
      some ["x", "x"] :=
  ⟨by decide, rfl,
    (c6_required_vars [TSeg.lit 's', TSeg.var "x", TSeg.lit 't', TSeg.var "x"]
      (by decide)).1⟩

/-! ## C8: the linear-chain scenario -/

/-- Task A of spec §8 scenario 1. -/
def taskA8 : Task := ⟨"A", echoAgent, "start {x}", [], some "a"⟩

/-- Task B of spec §8 scenario 1: depends on A's result key a. -/
def taskB8 : Task := ⟨"B", echoAgent, "next {a}", [⟨"A", "a"⟩], some "b"⟩

/-- C8: executing the two-task crew A, B with echo agents and initial
context x = "1" yields a final context with x = "1", a = "R:start 1" and
b = "R:next R:start 1", completed order A then B, and no deadlock. -/
theorem c8_linear_chain :
    ctxGet (crewExecute [taskA8, taskB8] [("x", PyVal.str "1")]).1 "x" =
      some (PyVal.str "1") ∧
    ctxGet (crewExecute [taskA8, taskB8] [("x", PyVal.str "1")]).1 "a" =
      some (PyVal.str "R:start 1") ∧
    ctxGet (crewExecute [taskA8, taskB8] [("x", PyVal.str "1")]).1 "b" =
      some (PyVal.str "R:next R:start 1") ∧
    (crewExecute [taskA8, taskB8] [("x", PyVal.str "1")]).2.1 = ["A", "B"] ∧
    (crewExecute [taskA8, taskB8] [("x", PyVal.str "1")]).2.2 = false :=
  ⟨rfl, rfl, rfl, rfl, rfl⟩

/-! ## C10: the caller's initial-context dict is never mutated -/

theorem heapGet_set_ne (h : Heap) (r r' : Nat) (c : Ctx) (hne : r' ≠ r) :
    heapGet (heapSet h r c) r' = heapGet h r' := by
  induction h with
  | nil => simp [heapSet, heapGet, Ne.symm hne]
  | cons p rest ih =>
      obtain ⟨r₀, c₀⟩ := p
      by_cases h0 : r₀ = r
      · subst h0
        simp [heapSet, heapGet, Ne.symm hne]
      · by_cases h1 : r₀ = r'
        · simp [heapSet, heapGet, h0, h1, hne]
        · simp [heapSet, heapGet, h0, h1, ih]

theorem foldl_max_le (h : Heap) :
    ∀ acc, acc ≤ h.foldl (fun a p => max a (p.1 + 1)) acc := by
  induction h with
  | nil => intro acc; simp
  | cons p rest ih =>
      intro acc
      rw [List.foldl_cons]
      exact le_trans (le_max_left _ _) (ih _)

theorem heapGet_lt_foldl (h : Heap) (r : Nat)
    (hr : (heapGet h r).isSome = true) :
    ∀ acc, r < h.foldl (fun a p => max a (p.1 + 1)) acc := by
  induction h with
  | nil => simp [heapGet] at hr
  | cons p rest ih =>
      obtain ⟨r₀, c₀⟩ := p
      intro acc
      rw [List.foldl_cons]
      dsimp only
      by_cases h0 : r₀ = r
      · subst h0
        have h1 : r₀ + 1 ≤ max acc (r₀ + 1) := le_max_right _ _
        have h2 := foldl_max_le rest (max acc (r₀ + 1))
        omega
      · have hr' : (heapGet rest r).isSome = true := by
          simpa [heapGet, h0] using hr
        exact ih hr' _

/-- C10: constructing a crew copies the caller's initial-context dict
(core.py:116) and execution writes only the crew's own copy (local mode)
or the manager's result store (swarm mode), so after either run the
caller's dict holds exactly its original entries. -/
theorem c10_no_caller_mutation (h : Heap) (callerRef : Nat)
    (tasks : List Task) (nodes : List (String × SNode)) (fuel : Nat)
    (hcaller : (heapGet h callerRef).isSome = true) :
    heapGet (crewRunHeap h callerRef tasks).1 callerRef = heapGet h callerRef ∧
    heapGet (swarmRunHeap h callerRef tasks nodes fuel).1 callerRef =
      heapGet h callerRef := by
  have hfresh : callerRef ≠ freshRef h :=
    Nat.ne_of_lt (heapGet_lt_foldl h callerRef hcaller 0)
  constructor
  · simp only [crewRunHeap, crewInitHeap]
    rw [heapGet_set_ne _ _ _ _ hfresh, heapGet_set_ne _ _ _ _ hfresh]
  · simp only [swarmRunHeap, crewInitHeap]
    rw [heapGet_set_ne _ _ _ _ hfresh]

/-- C10, witness at a concrete heap holding one caller dict. -/
theorem c10_witness :
    heapGet (crewRunHeap [(0, [("x", PyVal.str "1")])] 0 []).1 0 =
      heapGet [(0, [("x", PyVal.str "1")])] 0 ∧
    heapGet (swarmRunHeap [(0, [("x", PyVal.str "1")])] 0 [] [] 1).1 0 =
      heapGet [(0, [("x", PyVal.str "1")])] 0 :=
  c10_no_caller_mutation [(0, [("x", PyVal.str "1")])] 0 [] [] 1 rfl

end SmolCrew
